import Mathlib

/-!
Verification of the core iterative block eigensolver in
src/src/matrices/eigensolver.c.

The C code is shallowly embedded over exact rational scalars: the C type
real is modelled as the rationals, and block (n, p) vectors are flat lists
of scalars, matching the flat data[i] loops of the source.  External
collaborators that the core only calls through pointers or libm (the
operator A, the preconditioner K, the constraint, sqrt, the Ridder phase
of linmin after bracketing, and the final diagonalization post-pass
eigensolver_get_eigenvals_aux) are supplied as function parameters.  A
CHECK(cond, msg) in the source aborts the program when cond is false;
this is modelled by a fatal outcome carrying the message string.  Loops
whose termination rests on real-number progress are given an explicit
fuel argument; running out of fuel is a distinct outcome, so every
theorem below is fuel-generic.
-/

/-- tr(Zt W) for real block vectors stored as flat lists
(evectmatrix_traceXtY for the real scalar case). -/
def traceXtY (Z W : List ℚ) : ℚ := (List.zipWith (fun a b => a * b) Z W).sum

/-- Z := a * Z + b * W elementwise (evectmatrix_aXpbY). -/
def aXpbY (a : ℚ) (Z : List ℚ) (b : ℚ) (W : List ℚ) : List ℚ :=
  List.zipWith (fun z w => a * z + b * w) Z W

/-- The flags bit set of the eigensolver, one Bool per recognized bit. -/
structure EigFlags where
  verbose : Bool
  project_precond : Bool
  reset_cg : Bool
  force_exact : Bool
  force_approx : Bool
deriving DecidableEq

/-- EIGENSOLVER_MAX_ITERATIONS (line 55). -/
def eigMaxIterations : ℕ := 10000

/-- CG_RESET_ITERS (line 62). -/
def cgResetIters : ℕ := 70

/-- APPROX_LINMIN_SLOWDOWN_GUESS (line 79). -/
def approxLinminSlowdownGuess : ℚ := 2

/-- APPROX_LINMIN_IMPROVEMENT_THRESHOLD (line 88). -/
def approxLinminImprovementThreshold : ℚ := 1/20

/-- K_PI (line 40), the decimal constant of the source read exactly. -/
def kPi : ℚ := 3.141592653589793238462643383279502884197

/-- The 1e-7 absolute floor appearing in the convergence test (line 396). -/
def epsConv : ℚ := 1/10000000

/-- Outcome of the driver loop: normal convergence after some number of
iterations, or a fatal CHECK failure. -/
inductive DriverOutcome where
  | converged (iterations : ℕ)
  | fatal (msg : String)
deriving DecidableEq

/-- The message of the CHECK following the driver loop (lines 624-627);
STRINGIZE pastes the iteration cap into the string. -/
def nonconvergenceMsg : String := "failure to converge after 10000 iterations"

/-- The outer do-while driver loop of eigensolver (lines 370-622) at the
scalar control level.  Es iter is the trace E computed in iteration iter
by the external operator and the matrix primitives (lines 376-392); it is
an oracle because A and K are outside the core.  prevE threads prev_E.
The loop body at counter iter either breaks with convergence (lines
395-397) or continues; fuel counts the remaining body executions allowed
by the guard ++iteration < EIGENSOLVER_MAX_ITERATIONS together with the
CHECK after the loop, so exhausted fuel is the fatal non-convergence
abort. -/
def driverLoop (tol : ℚ) (Es : ℕ → ℚ) : ℕ → ℕ → ℚ → DriverOutcome
  | 0, _, _ => .fatal nonconvergenceMsg
  | fuel + 1, iter, prevE =>
    if 0 < iter ∧ |Es iter - prevE| < tol * (1/2) * (Es iter + prevE + epsConv) then
      .converged iter
    else
      driverLoop tol Es fuel (iter + 1) (Es iter)

/-- The convergence test of lines 395-396 holding between the traces of
iterations j and j+1. -/
def convergedAt (tol : ℚ) (Es : ℕ → ℚ) (j : ℕ) : Prop :=
  |Es (j + 1) - Es j| < tol * (1/2) * (Es (j + 1) + Es j + epsConv)

/-- Result of one eigensolver call: the loop outcome together with the
final contents of the caller-supplied eigenvals array. -/
structure EigensolverResult where
  outcome : DriverOutcome
  eigenvals : List ℚ
deriving DecidableEq

/-- Driver entry (lines 295-645) at the scalar control level: eigenvals is
zero-filled before the loop (lines 364-365); the loop runs with an
iteration cap of eigMaxIterations; on convergence the external post-pass
eigensolver_get_eigenvals_aux (line 631) produces the final eigenvalues,
abstracted as postPass applied to the number of iterations; on a fatal
CHECK the zero-filled array is what remains.  flags does not influence
the iteration-cap control flow (it only selects strategies and printing
inside the body, which the Es oracle absorbs); it is kept as a parameter
because the call carries it. -/
def eigensolver (_flags : EigFlags) (eigenvals : List ℚ) (tol : ℚ)
    (Es : ℕ → ℚ) (postPass : ℕ → List ℚ) : EigensolverResult :=
  let ev0 : List ℚ := List.replicate eigenvals.length 0
  match driverLoop tol Es eigMaxIterations 0 0 with
  | .converged k => ⟨.converged k, postPass k⟩
  | .fatal msg => ⟨.fatal msg, ev0⟩

/-- The fused Polak-Ribiere pass (lines 441-445): one structural traversal
of the two equally long flat blocks that, at each index, saves g = G[i],
subtracts prev_G[i] from G[i] (ACCUMULATE_DIFF) and writes g into
prev_G[i].  No block-shaped temporary is formed: the traversal produces
both output lists at once, mirroring the single C loop. -/
def prFusedPass : List ℚ → List ℚ → List ℚ × List ℚ
  | g :: gs, pg :: pgs =>
    let r := prFusedPass gs pgs
    ((g - pg) :: r.1, g :: r.2)
  | _, _ => ([], [])

/-- Result of the conjugate-gradient combine step. -/
structure CgOut where
  G : List ℚ
  prev_G : List ℚ
  D : List ℚ
  gamma : ℚ
deriving DecidableEq

/-- The CG direction update of lines 434-466, run when nWork is at least 3
(usingConjugateGradient); usePR is use_polak_ribiere (nWork at least 4).
prevTraceGtX threads prev_traceGtX (initialized to 0 at line 307).  The
final direction update is evectmatrix_aXpbY(gamma, D, 1.0, X). -/
def cgUpdate (usePR resetCG : Bool) (iteration : ℕ) (prevTraceGtX : ℚ)
    (G prev_G D X : List ℚ) : CgOut :=
  let gp := if usePR = true then prFusedPass G prev_G else (G, prev_G)
  let gammaNumerator := if usePR = true then traceXtY gp.1 X else traceXtY G X
  let gamma0 := if prevTraceGtX = 0 then 0 else gammaNumerator / prevTraceGtX
  let gamma := if resetCG = true ∧ (iteration + 1) % cgResetIters = 0 then 0 else gamma0
  ⟨gp.1, gp.2, List.zipWith (fun d x => gamma * d + x) D X, gamma⟩

/-- The initial value of prev_traceGtX (line 307). -/
def initPrevTraceGtX : ℚ := 0

/-- The six measured per-operation times of one iteration. -/
structure OpTimes where
  tAZ : ℚ
  tKZ : ℚ
  tZtW : ℚ
  tZS : ℚ
  tZtZ : ℚ
  tLinmin : ℚ
deriving DecidableEq

/-- EXACT_LINMIN_TIME (lines 69-70). -/
def exactLinminTime (t : OpTimes) : ℚ :=
  t.tAZ * 2 + t.tKZ + t.tZtW * 4 + t.tZS * 2 + t.tZtZ * 2 + t.tLinmin

/-- APPROX_LINMIN_TIME (lines 72-73). -/
def approxLinminTime (t : OpTimes) : ℚ :=
  t.tAZ * 2 + t.tKZ + t.tZtW * 2 + t.tZS * 2 + t.tZtZ * 2

/-- The strategy controller at the end of each iteration (lines 595-621);
the returned Bool is use_linmin for the next iteration, true meaning the
exact line minimization. -/
def chooseStrategy (flags : EigFlags) (linminImprovement : ℚ) (t : OpTimes) : Bool :=
  let tExact := exactLinminTime t +
    (if flags.project_precond = true then t.tZtW + t.tZS else 0)
  let tApprox := approxLinminTime t +
    (if flags.project_precond = true then t.tZtW + t.tZS else 0)
  if flags.force_exact = false ∧ 0 < linminImprovement ∧
      linminImprovement ≤ approxLinminImprovementThreshold ∧
      tExact > tApprox * approxLinminSlowdownGuess then
    false
  else
    true

/-- The start-of-iteration override of lines 373-374: EIGS_FORCE_APPROX_LINMIN
forces use_linmin = 0 regardless of the controller decision. -/
def strategyAtIterationStart (flags : EigFlags) (useLinmin : Bool) : Bool :=
  if flags.force_approx = true then false else useLinmin

/-- Result of the approximate line minimization branch. -/
structure ApproxLinminOut where
  Y : List ℚ
  theta : ℚ
  flipped : Bool
deriving DecidableEq

/-- The approximate line minimization of lines 470-523.  dNorm abstracts
the external sqrt(tr(Dt D) / p) of line 481, an input because sqrt is
irrational on the rationals.  evalTrace abstracts the recomputation of
U = inverse(Yt Y) and E2 = tr((Yt A Y) U) at the shifted block (lines
491-496), which calls the external operator A.  flipped records
use_linmin being set back to 1 at line 516 after the probe shift is
undone at line 517. -/
def approxLinminStep (E prevE prevTheta dNorm : ℚ) (Y D prev_G : List ℚ)
    (evalTrace : List ℚ → ℚ) : ApproxLinminOut :=
  let dE := 2 * traceXtY prev_G D / dNorm
  let t := if dE < 0 then -|prevTheta| else |prevTheta|
  let Y1 := aXpbY 1 Y (t / dNorm) D
  let E2 := evalTrace Y1
  let d2E := (E2 - E - dE * t) / (1/2 * t * t)
  let theta := -dE / d2E
  if d2E < 0 ∨ -(1/2) * dE * theta > 20 * |E - prevE| then
    ⟨aXpbY 1 Y1 (-t / dNorm) D, theta, true⟩
  else
    ⟨aXpbY 1 Y1 ((theta - t) / dNorm) D, theta, false⟩

/-- The two sequential conditionals of lines 470-584: when use_linmin is 0
the approximate branch runs first and may set use_linmin back to 1, in
which case the following if (use_linmin) block runs the exact strategy in
the same iteration.  exactStep abstracts the whole exact branch (lines
524-584) as a map from the current block Y to the rotated block and the
step theta it chose.  The returned Bool is use_linmin after the phase. -/
def linminPhase (useLinmin : Bool) (exactStep : List ℚ → List ℚ × ℚ)
    (E prevE prevTheta dNorm : ℚ) (Y D prev_G : List ℚ)
    (evalTrace : List ℚ → ℚ) : List ℚ × ℚ × Bool :=
  if useLinmin = false then
    let r := approxLinminStep E prevE prevTheta dNorm Y D prev_G evalTrace
    if r.flipped = true then
      ((exactStep r.Y).1, (exactStep r.Y).2, true)
    else
      (r.Y, r.theta, false)
  else
    ((exactStep Y).1, (exactStep Y).2, true)

/-- theta = dE > 0 ? -fabs(prev_theta) : fabs(prev_theta) (lines 560 and
570): the source rendering of sign(-dE) * abs(prev_theta), where the sign
of -0 is read as +1 by the ternary. -/
def flipTheta (dE prevTheta : ℚ) : ℚ := if 0 < dE then -|prevTheta| else |prevTheta|

/-- The first two safeguards on the Newton estimate theta = -dE/d2E in the
exact branch (lines 557-566): if d2E < 0 the estimate is replaced by the
sign-corrected previous step; the else-if branch for an overly optimistic
predicted trace change only prints in verbose mode and keeps theta. -/
def thetaAfterSafeguard12 (dE d2E prevTheta E prevE : ℚ) : ℚ :=
  if d2E < 0 then flipTheta dE prevTheta
  else if -(1/2) * dE * (-dE / d2E) > 2 * |E - prevE| then -dE / d2E
  else -dE / d2E

/-- All three safeguards of lines 557-571: after the first two, a theta of
magnitude at least K_PI is replaced by the sign-corrected previous
step. -/
def safeguardTheta (dE d2E prevTheta E prevE : ℚ) : ℚ :=
  if kPi ≤ |thetaAfterSafeguard12 dE d2E prevTheta E prevE| then flipTheta dE prevTheta
  else thetaAfterSafeguard12 dE d2E prevTheta E prevE

/-- Exit of the inner stepping loop of the bracketing phase: either a
derivative sign change was hit at x (the break of line 186), carrying the
last point xmin2 before the change, or x stepped past xmax. -/
inductive ScanExit where
  | found (x f df xmin2 f_xmin2 df_xmin2 : ℚ)
  | exhausted
deriving DecidableEq

/-- The inner for loop of the bracketing phase (lines 182-190): from x,
step by dx while x*s stays within xmax*s, evaluating func and stopping at
the first point whose derivative has the bracketing sign.  best carries
(xmin2, f_xmin2, df_xmin2), the most recent point without a sign
change. -/
def scanBracket (func : ℚ → ℚ × ℚ) (s xmax xmin dx : ℚ) :
    ℕ → ℚ × ℚ × ℚ → ℚ → Option ScanExit
  | 0, _, _ => none
  | fuel + 1, best, x =>
    if x * s ≤ xmax * s then
      if (func x).2 * (x - xmin) > 0 then
        some (.found x (func x).1 (func x).2 best.1 best.2.1 best.2.2)
      else
        scanBracket func s xmax xmin dx fuel (x, (func x).1, (func x).2) (x + dx)
    else
      some .exhausted

/-- State of the line search when the bracketing loop exits. -/
structure BracketOut where
  xmin : ℚ
  f_xmin : ℚ
  df_xmin : ℚ
  xmax : ℚ
  f_xmax : ℚ
  df_xmax : ℚ
  x0 : ℚ
  found : Bool
deriving DecidableEq

/-- The outer bracketing do-while loop of linmin (lines 179-197).  found
records which exit was taken (the test x*s <= xmax*s of line 191).  On
the not-found exit the C code leaves f_xmax and df_xmax unset and the
CHECK that follows always fails, so they are modelled as 0 there; on that
exit xmin keeps its entry value (xmin2 is local to a round and only
published on the found exit) and x0 is the last halved guess. -/
def bracketLoop (func : ℚ → ℚ × ℚ) (tol s xmax : ℚ)
    (xmin f_xmin df_xmin : ℚ) (innerFuel : ℕ) : ℕ → ℚ → Option BracketOut
  | 0, _ => none
  | fuel + 1, x0 =>
    match scanBracket func s xmax xmin ((x0 - xmin) * 2) innerFuel (xmin, f_xmin, df_xmin)
        (xmin + (x0 - xmin) * 2) with
    | none => none
    | some (.found x f df xmin2 f2 df2) => some ⟨xmin2, f2, df2, x, f, df, x0, true⟩
    | some .exhausted =>
      if |(x0 + xmin) / 2 - xmin| > tol * (|(x0 + xmin) / 2| + tol) then
        bracketLoop func tol s xmax xmin f_xmin df_xmin innerFuel fuel ((x0 + xmin) / 2)
      else
        some ⟨xmin, f_xmin, df_xmin, xmax, 0, 0, (x0 + xmin) / 2, false⟩

/-- Outcome of linmin: the minimizing x with the fractional improvement,
a fatal CHECK failure, or fuel exhaustion of the bracketing loops. -/
inductive LinminOutcome where
  | ok (x improvement : ℚ)
  | fatal (msg : String)
  | outOfFuel
deriving DecidableEq

/-- linmin (lines 162-291): the two precondition CHECKs (lines 170-174),
the phase-1 bracketing loop with its CHECK (lines 179-199), then the
phase-2 setup (lines 201-214: recentering x0 inside the bracket and
swapping the endpoints so that xmin < xmax).  The Ridder iteration itself
(lines 216-283) uses the external sqrt of libm and is abstracted as
ridder, mapping the bracket state and the starting guess to the final x
and the fractional improvement of line 282. -/
def linmin (func : ℚ → ℚ × ℚ) (ridder : BracketOut → ℚ → ℚ × ℚ)
    (xmin f_xmin df_xmin xmax x0 tol : ℚ) (innerFuel outerFuel : ℕ) : LinminOutcome :=
  if df_xmin * (x0 - xmin) < 0 then
    let s : ℚ := if xmax > xmin then 1 else -1
    if x0 * s < xmax * s ∧ x0 * s > xmin * s then
      match bracketLoop func tol s xmax xmin f_xmin df_xmin innerFuel outerFuel x0 with
      | none => .outOfFuel
      | some st =>
        if |st.x0 - st.xmin| > tol * (|st.x0| + tol) then
          let x1 := if st.x0 * s ≤ st.xmin * s ∨ st.x0 * s ≥ st.xmax * s then
                      (st.xmin + st.xmax) / 2
                    else st.x0
          let st2 := if st.xmin > st.xmax then
                       BracketOut.mk st.xmax st.f_xmax st.df_xmax st.xmin st.f_xmin
                         st.df_xmin st.x0 st.found
                     else st
          .ok (ridder st2 x1).1 (ridder st2 x1).2
        else .fatal "linmin: failed to bracket minimum!"
    else .fatal "linmin: initial guess out of range"
  else .fatal "linmin: bad initial guess!"

/-! ### Helper lemmas about the driver loop -/

/-- One unfolding of the driver loop body. -/
theorem driverLoop_succ (tol : ℚ) (Es : ℕ → ℚ) (iter : ℕ) (prevE : ℚ) (fuel : ℕ) :
    driverLoop tol Es (fuel + 1) iter prevE =
      if 0 < iter ∧ |Es iter - prevE| < tol * (1/2) * (Es iter + prevE + epsConv) then
        .converged iter
      else
        driverLoop tol Es fuel (iter + 1) (Es iter) := by
  simp only [driverLoop]

/-- A convergence exit reports an iteration counter at least the starting
counter. -/
theorem driverLoop_converged_le (tol : ℚ) (Es : ℕ → ℚ) :
    ∀ fuel iter prevE k, driverLoop tol Es fuel iter prevE = .converged k → iter ≤ k := by
  intro fuel
  induction fuel with
  | zero => intro iter prevE k h; simp [driverLoop] at h
  | succ n ih =>
    intro iter prevE k h
    rw [driverLoop_succ] at h
    by_cases hc : 0 < iter ∧ |Es iter - prevE| < tol * (1/2) * (Es iter + prevE + epsConv)
    · rw [if_pos hc] at h
      injection h with h2
      exact h2.le
    · rw [if_neg hc] at h
      exact Nat.le_of_succ_le (ih (iter + 1) (Es iter) k h)

/-- A convergence exit reports an iteration counter below the starting
counter plus the remaining fuel. -/
theorem driverLoop_converged_lt (tol : ℚ) (Es : ℕ → ℚ) :
    ∀ fuel iter prevE k, driverLoop tol Es fuel iter prevE = .converged k → k < iter + fuel := by
  intro fuel
  induction fuel with
  | zero => intro iter prevE k h; simp [driverLoop] at h
  | succ n ih =>
    intro iter prevE k h
    rw [driverLoop_succ] at h
    by_cases hc : 0 < iter ∧ |Es iter - prevE| < tol * (1/2) * (Es iter + prevE + epsConv)
    · rw [if_pos hc] at h
      injection h with h2
      omega
    · rw [if_neg hc] at h
      have := ih (iter + 1) (Es iter) k h
      omega

/-- If the convergence test never succeeds, the loop exhausts its fuel and
exits with the non-convergence message. -/
theorem driverLoop_fatal_of_never (tol : ℚ) (Es : ℕ → ℚ)
    (h : ∀ j, ¬ convergedAt tol Es j) :
    ∀ fuel iter, driverLoop tol Es fuel (iter + 1) (Es iter) = .fatal nonconvergenceMsg := by
  intro fuel
  induction fuel with
  | zero => intro iter; rfl
  | succ n ih =>
    intro iter
    have hc : ¬ (0 < iter + 1 ∧
        |Es (iter + 1) - Es iter| < tol * (1/2) * (Es (iter + 1) + Es iter + epsConv)) :=
      fun hand => h iter hand.2
    rw [driverLoop_succ, if_neg hc]
    exact ih (iter + 1)

/-- At the eigensolver entry the same fact: a trace sequence on which the
convergence test never succeeds makes the driver abort fatally. -/
theorem eigensolver_fatal_of_never (flags : EigFlags) (evs : List ℚ) (tol : ℚ)
    (Es : ℕ → ℚ) (postPass : ℕ → List ℚ)
    (h : ∀ j, ¬ convergedAt tol Es j) :
    (eigensolver flags evs tol Es postPass).outcome = .fatal nonconvergenceMsg := by
  have h0 : driverLoop tol Es eigMaxIterations 0 0 = .fatal nonconvergenceMsg := by
    have he : eigMaxIterations = 9999 + 1 := rfl
    rw [he, driverLoop_succ]
    rw [if_neg (by rintro ⟨h1, -⟩; exact absurd h1 (lt_irrefl 0))]
    exact driverLoop_fatal_of_never tol Es h 9999 0
  unfold eigensolver
  rw [h0]

/-! ### C2: iteration cap and non-convergence abort -/

/-- C2: for every admissible input and every flags value, the driver loop
executes at most 10000 iterations: a convergence exit reports an
iteration counter strictly below eigMaxIterations, and if the convergence
test never succeeds the driver aborts with the fatal non-convergence
message instead of returning normally. -/
theorem C2_iteration_cap (flags : EigFlags) (evs : List ℚ) (tol : ℚ)
    (Es : ℕ → ℚ) (postPass : ℕ → List ℚ) :
    (∀ k, (eigensolver flags evs tol Es postPass).outcome = .converged k →
       k < eigMaxIterations)
  ∧ ((∀ j, ¬ convergedAt tol Es j) →
       (eigensolver flags evs tol Es postPass).outcome = .fatal nonconvergenceMsg) := by
  constructor
  · intro k hk
    have hd : driverLoop tol Es eigMaxIterations 0 0 = .converged k := by
      unfold eigensolver at hk
      cases hdr : driverLoop tol Es eigMaxIterations 0 0 with
      | converged m =>
        rw [hdr] at hk
        simp only [DriverOutcome.converged.injEq] at hk
        rw [hk]
      | fatal m =>
        rw [hdr] at hk
        simp at hk
    have := driverLoop_converged_lt tol Es eigMaxIterations 0 0 k hd
    simpa using this
  · exact eigensolver_fatal_of_never flags evs tol Es postPass

/-- Witness for C2: a run that converges at iteration 1 (so below the cap),
and a run whose test never succeeds, which aborts fatally. -/
theorem C2_iteration_cap_witness :
    1 < eigMaxIterations
  ∧ (eigensolver ⟨false, false, false, false, false⟩ [] 0 (fun _ => 0)
       (fun _ => [])).outcome = .fatal nonconvergenceMsg := by
  constructor
  · refine (C2_iteration_cap ⟨false, false, false, false, false⟩ [] 1 (fun _ => 0)
      (fun _ => [])).1 1 ?_
    have h1 : driverLoop 1 (fun _ => 0) eigMaxIterations 0 0 = .converged 1 := by
      have e1 : eigMaxIterations = 9999 + 1 := rfl
      rw [e1, driverLoop_succ, if_neg (by norm_num)]
      have e2 : (9999 : ℕ) = 9998 + 1 := rfl
      rw [e2, driverLoop_succ, if_pos (by norm_num [epsConv])]
    unfold eigensolver
    rw [h1]
  · exact (C2_iteration_cap ⟨false, false, false, false, false⟩ [] 0 (fun _ => 0)
      (fun _ => [])).2 (by intro j hc; norm_num [convergedAt, epsConv] at hc)

/-! ### C1: the convergence test compares against the signed traces -/

/-- C1 counterexample: at iteration 1 with E = E_prev = -1 and tolerance 1
the claimed test, which uses the absolute values of the traces, holds,
yet the driver loop does not declare convergence: the code compares
against tolerance * (E + E_prev + 1e-7) / 2 with the signed traces, which
is negative here. -/
theorem C1_counterexample :
    driverLoop 1 (fun _ => -1) 1 1 (-1) = DriverOutcome.fatal nonconvergenceMsg
  ∧ |(-1 : ℚ) - (-1)| < 1 * (1/2) * (|(-1 : ℚ)| + |(-1 : ℚ)| + epsConv) := by
  constructor
  · norm_num [driverLoop, epsConv]
  · norm_num [epsConv]

/-- C1 amended: for every iteration with counter greater than 0, the driver
loop declares convergence in that iteration if and only if
|E - E_prev| < tolerance * (E + E_prev + 1e-7) / 2, where the signed
traces E and E_prev appear in the right-hand side, not their absolute
values. -/
theorem C1_convergence_exit_iff (tol prevE : ℚ) (Es : ℕ → ℚ) (iter fuel : ℕ)
    (hiter : 0 < iter) :
    driverLoop tol Es (fuel + 1) iter prevE = .converged iter ↔
      |Es iter - prevE| < tol * (1/2) * (Es iter + prevE + epsConv) := by
  rw [driverLoop_succ]
  by_cases hc : |Es iter - prevE| < tol * (1/2) * (Es iter + prevE + epsConv)
  · rw [if_pos ⟨hiter, hc⟩]
    exact iff_of_true rfl hc
  · rw [if_neg (fun hand => hc hand.2)]
    constructor
    · intro h
      have := driverLoop_converged_le tol Es fuel (iter + 1) (Es iter) iter h
      omega
    · intro h
      exact absurd h hc

/-- Witness for C1 amended, at iteration 1 with both traces 0. -/
theorem C1_convergence_exit_iff_witness :
    driverLoop 1 (fun _ => 0) 2 1 0 = DriverOutcome.converged 1 :=
  (C1_convergence_exit_iff 1 0 (fun _ => 0) 1 1 (by norm_num)).mpr
    (by norm_num [epsConv])

/-! ### C10: eigenvals is zero-filled before the loop -/

/-- C10: the driver overwrites the caller-supplied eigenvals with zeros at
entry, so when it later aborts fatally the array holds the zeros, not the
caller-provided contents. -/
theorem C10_eigenvals_zero_overwrite (flags : EigFlags) (evs : List ℚ) (tol : ℚ)
    (Es : ℕ → ℚ) (postPass : ℕ → List ℚ) (msg : String)
    (hfatal : (eigensolver flags evs tol Es postPass).outcome = .fatal msg) :
    (eigensolver flags evs tol Es postPass).eigenvals = List.replicate evs.length 0
  ∧ (evs ≠ List.replicate evs.length 0 →
       (eigensolver flags evs tol Es postPass).eigenvals ≠ evs) := by
  have h1 : (eigensolver flags evs tol Es postPass).eigenvals =
      List.replicate evs.length 0 := by
    unfold eigensolver at hfatal ⊢
    cases hdr : driverLoop tol Es eigMaxIterations 0 0 with
    | converged k =>
      rw [hdr] at hfatal
      simp at hfatal
    | fatal m => rfl
  refine ⟨h1, fun hne => ?_⟩
  rw [h1]
  exact fun h => hne h.symm

/-- Witness for C10: a non-converging run with caller contents [5] ends with
the zero-filled array. -/
theorem C10_eigenvals_zero_overwrite_witness :
    (eigensolver ⟨false, false, false, false, false⟩ [5] 0 (fun _ => 0)
       (fun _ => [])).eigenvals = List.replicate 1 0 := by
  have hf := eigensolver_fatal_of_never ⟨false, false, false, false, false⟩ [5] 0
    (fun _ => 0) (fun _ => []) (by intro j hc; norm_num [convergedAt, epsConv] at hc)
  have h := (C10_eigenvals_zero_overwrite ⟨false, false, false, false, false⟩ [5] 0
    (fun _ => 0) (fun _ => []) nonconvergenceMsg hf).1
  simpa using h

/-! ### Helper lemmas about the fused Polak-Ribiere pass -/

/-- The first component of the fused pass is the elementwise difference
G - prev_G. -/
theorem prFusedPass_fst (G : List ℚ) : ∀ prev_G,
    (prFusedPass G prev_G).1 = List.zipWith (fun a b => a - b) G prev_G := by
  induction G with
  | nil => intro pg; cases pg <;> simp [prFusedPass]
  | cons g gs ih =>
    intro pg
    cases pg with
    | nil => simp [prFusedPass]
    | cons p ps => simp [prFusedPass, ih ps]

/-- On equally long blocks the second component of the fused pass is the
incoming G. -/
theorem prFusedPass_snd (G : List ℚ) : ∀ prev_G, G.length = prev_G.length →
    (prFusedPass G prev_G).2 = G := by
  induction G with
  | nil =>
    intro pg h
    cases pg with
    | nil => rfl
    | cons p ps => simp at h
  | cons g gs ih =>
    intro pg h
    cases pg with
    | nil => simp at h
    | cons p ps => simp [prFusedPass, ih ps (by simpa using h)]

/-! ### C6: the fused Polak-Ribiere pass -/

/-- C6: on equally long (n, p) blocks the fused pass turns each pair
(G[i], prev_G[i]) into (G_old[i] - prev_G_old[i], G_old[i]) in one
traversal with no block-shaped temporary, and the gamma numerator
computed on the updated G equals tr((G - prev_G)t X). -/
theorem C6_pr_fused_pass (G prev_G X : List ℚ) (h : G.length = prev_G.length) :
    (prFusedPass G prev_G).1 = List.zipWith (fun a b => a - b) G prev_G
  ∧ (prFusedPass G prev_G).2 = G
  ∧ traceXtY (prFusedPass G prev_G).1 X =
      traceXtY (List.zipWith (fun a b => a - b) G prev_G) X :=
  ⟨prFusedPass_fst G prev_G, prFusedPass_snd G prev_G h,
    by rw [prFusedPass_fst]⟩

/-- Witness for C6 on the blocks G = [3, 5], prev_G = [1, 2]. -/
theorem C6_pr_fused_pass_witness :
    (prFusedPass [3, 5] [1, 2]).1 = [2, 3] ∧ (prFusedPass [3, 5] [1, 2]).2 = [3, 5] := by
  have h := C6_pr_fused_pass [3, 5] [1, 2] [1, 1] rfl
  refine ⟨h.1.trans ?_, h.2.1⟩
  norm_num [List.zipWith]

/-! ### C5: the CG gamma and direction update -/

/-- C5: with nWork at least 3 the direction update is D := gamma * D + X,
where gamma is 0 whenever the previous tr(Gt X) is 0 (so in particular on
the first iteration, where prev_traceGtX carries its initial value 0),
gamma is 0 when RESET_CG is set and (iteration + 1) mod 70 = 0, and
otherwise gamma is the Polak-Ribiere numerator tr((G - prev_G)t X) or the
Fletcher-Reeves numerator tr(Gt X), divided by the previous tr(Gt X). -/
theorem C5_cg_gamma (usePR resetCG : Bool) (iteration : ℕ) (prevTraceGtX : ℚ)
    (G prev_G D X : List ℚ) :
    (cgUpdate usePR resetCG iteration prevTraceGtX G prev_G D X).D =
      List.zipWith (fun d x =>
        (cgUpdate usePR resetCG iteration prevTraceGtX G prev_G D X).gamma * d + x) D X
  ∧ (prevTraceGtX = 0 →
      (cgUpdate usePR resetCG iteration prevTraceGtX G prev_G D X).gamma = 0)
  ∧ (resetCG = true ∧ (iteration + 1) % cgResetIters = 0 →
      (cgUpdate usePR resetCG iteration prevTraceGtX G prev_G D X).gamma = 0)
  ∧ (prevTraceGtX ≠ 0 → ¬(resetCG = true ∧ (iteration + 1) % cgResetIters = 0) →
      (cgUpdate usePR resetCG iteration prevTraceGtX G prev_G D X).gamma =
        (if usePR = true then traceXtY (List.zipWith (fun a b => a - b) G prev_G) X
         else traceXtY G X) / prevTraceGtX)
  ∧ (cgUpdate usePR resetCG iteration initPrevTraceGtX G prev_G D X).gamma = 0 := by
  refine ⟨rfl, ?_, ?_, ?_, ?_⟩
  · intro h
    simp only [cgUpdate, h]
    split <;> simp
  · intro h
    simp only [cgUpdate]
    rw [if_pos h]
  · intro h1 h2
    simp only [cgUpdate]
    rw [if_neg h2, if_neg h1]
    by_cases hp : usePR = true
    · rw [if_pos hp, if_pos hp, if_pos hp, prFusedPass_fst]
    · rw [if_neg hp, if_neg hp]
  · simp only [cgUpdate, initPrevTraceGtX]
    split <;> simp

/-- Witness for C5 with Polak-Ribiere, no reset, prev_traceGtX = 2. -/
theorem C5_cg_gamma_witness :
    (cgUpdate true false 0 2 [3] [1] [1] [1]).gamma = 1 := by
  have h := (C5_cg_gamma true false 0 2 [3] [1] [1] [1]).2.2.2.1
    (by norm_num) (by simp)
  rw [h]
  norm_num [traceXtY, List.zipWith]

/-! ### C4: the strategy controller -/

/-- C4: the controller picks the approximate strategy for the next
iteration exactly when EIGS_FORCE_EXACT_LINMIN is unset, the last
recorded exact improvement lies in (0, 0.05], and the estimated exact
time exceeds twice the approximate estimate, both augmented by
t_ZtW + t_ZS when EIGS_PROJECT_PRECONDITIONING is set; and
EIGS_FORCE_APPROX_LINMIN forces the approximate strategy at the start of
every iteration regardless of the controller. -/
theorem C4_strategy_controller (flags : EigFlags) (linminImprovement : ℚ)
    (t : OpTimes) (useLinmin : Bool) :
    (chooseStrategy flags linminImprovement t = false ↔
      (flags.force_exact = false ∧ 0 < linminImprovement ∧
        linminImprovement ≤ approxLinminImprovementThreshold ∧
        exactLinminTime t + (if flags.project_precond = true then t.tZtW + t.tZS else 0) >
          (approxLinminTime t +
             (if flags.project_precond = true then t.tZtW + t.tZS else 0)) *
            approxLinminSlowdownGuess))
  ∧ (flags.force_approx = true → strategyAtIterationStart flags useLinmin = false) := by
  constructor
  · simp only [chooseStrategy]
    by_cases hcond : flags.force_exact = false ∧ 0 < linminImprovement ∧
        linminImprovement ≤ approxLinminImprovementThreshold ∧
        exactLinminTime t + (if flags.project_precond = true then t.tZtW + t.tZS else 0) >
          (approxLinminTime t +
             (if flags.project_precond = true then t.tZtW + t.tZS else 0)) *
            approxLinminSlowdownGuess
    · rw [if_pos hcond]
      exact iff_of_true rfl hcond
    · rw [if_neg hcond]
      exact iff_of_false (by simp) hcond
  · intro h
    unfold strategyAtIterationStart
    rw [if_pos h]

/-- Witness for C4: a controller decision for approximate, and the forced
approximate override. -/
theorem C4_strategy_controller_witness :
    chooseStrategy ⟨false, false, false, false, false⟩ (1/100) ⟨0, 0, 1, 0, 0, 1⟩ = false
  ∧ strategyAtIterationStart ⟨false, false, false, false, true⟩ true = false := by
  constructor
  · exact (C4_strategy_controller ⟨false, false, false, false, false⟩ (1/100)
      ⟨0, 0, 1, 0, 0, 1⟩ true).1.mpr
      (by norm_num [exactLinminTime, approxLinminTime, approxLinminImprovementThreshold,
        approxLinminSlowdownGuess])
  · exact (C4_strategy_controller ⟨false, false, false, false, true⟩ (1/100)
      ⟨0, 0, 1, 0, 0, 1⟩ true).2 rfl

/-! ### C7: safeguards on the exact Newton estimate -/

/-- C7: the safeguards of the exact branch act in order: a negative second
derivative replaces theta by the sign-corrected previous step (and the
later magnitude check cannot change that value); with a nonnegative
second derivative the overly-optimistic check keeps theta = -dE/d2E
unchanged (it only logs in verbose mode), so theta survives exactly when
its magnitude stays below K_PI, and is otherwise replaced by the
sign-corrected previous step. -/
theorem C7_theta_safeguards (dE d2E prevTheta E prevE : ℚ) :
    (d2E < 0 → safeguardTheta dE d2E prevTheta E prevE = flipTheta dE prevTheta)
  ∧ (0 ≤ d2E → |(-dE / d2E)| < kPi →
      safeguardTheta dE d2E prevTheta E prevE = -dE / d2E)
  ∧ (0 ≤ d2E → kPi ≤ |(-dE / d2E)| →
      safeguardTheta dE d2E prevTheta E prevE = flipTheta dE prevTheta) := by
  have h12neg : d2E < 0 →
      thetaAfterSafeguard12 dE d2E prevTheta E prevE = flipTheta dE prevTheta := by
    intro h
    unfold thetaAfterSafeguard12
    rw [if_pos h]
  have h12pos : 0 ≤ d2E →
      thetaAfterSafeguard12 dE d2E prevTheta E prevE = -dE / d2E := by
    intro h
    unfold thetaAfterSafeguard12
    rw [if_neg (not_lt.mpr h), ite_self]
  refine ⟨?_, ?_, ?_⟩
  · intro h
    unfold safeguardTheta
    rw [h12neg h, ite_self]
  · intro h1 h2
    unfold safeguardTheta
    rw [h12pos h1, if_neg (not_le.mpr h2)]
  · intro h1 h2
    unfold safeguardTheta
    rw [h12pos h1, if_pos h2]

/-- Witness for C7: a negative second derivative with positive dE flips
theta to minus the magnitude of the previous step. -/
theorem C7_theta_safeguards_witness :
    safeguardTheta 1 (-1) (1/2) 0 0 = -(1/2) := by
  have h := (C7_theta_safeguards 1 (-1) (1/2) 0 0).1 (by norm_num)
  rw [h]
  norm_num [flipTheta]

/-! ### C3: fallback from the approximate to the exact strategy -/

/-- C3: in the approximate branch, with dE, t, the probe-shifted block Y1,
E2, the finite-difference d2E and the Newton step theta as computed by
the code, the decision goes as follows: if d2E < 0 or
-0.5 * dE * theta > 20 * |E - E_prev|, the probe shift is undone by
subtracting (t / d_norm) * D and the exact branch runs in the same
iteration on the undone block (use_linmin ends true); otherwise the
incremental shift Y := Y + ((theta - t) / d_norm) * D is applied, the
exact branch does not run (the result does not involve exactStep), and
use_linmin ends false. -/
theorem C3_approx_fallback (E prevE prevTheta dNorm : ℚ) (Y D prev_G : List ℚ)
    (evalTrace : List ℚ → ℚ) (exactStep : List ℚ → List ℚ × ℚ)
    (dE t E2 d2E theta : ℚ) (Y1 : List ℚ)
    (hdE : dE = 2 * traceXtY prev_G D / dNorm)
    (ht : t = if dE < 0 then -|prevTheta| else |prevTheta|)
    (hY1 : Y1 = aXpbY 1 Y (t / dNorm) D)
    (hE2 : E2 = evalTrace Y1)
    (hd2E : d2E = (E2 - E - dE * t) / (1/2 * t * t))
    (htheta : theta = -dE / d2E) :
    (d2E < 0 ∨ -(1/2) * dE * theta > 20 * |E - prevE| →
      linminPhase false exactStep E prevE prevTheta dNorm Y D prev_G evalTrace =
        ((exactStep (aXpbY 1 Y1 (-t / dNorm) D)).1,
         (exactStep (aXpbY 1 Y1 (-t / dNorm) D)).2, true))
  ∧ (¬(d2E < 0 ∨ -(1/2) * dE * theta > 20 * |E - prevE|) →
      linminPhase false exactStep E prevE prevTheta dNorm Y D prev_G evalTrace =
        (aXpbY 1 Y1 ((theta - t) / dNorm) D, theta, false)) := by
  subst htheta hd2E hE2 hY1 ht hdE
  constructor
  · intro hcond
    have hstep : approxLinminStep E prevE prevTheta dNorm Y D prev_G evalTrace =
        ⟨aXpbY 1 (aXpbY 1 Y
            ((if 2 * traceXtY prev_G D / dNorm < 0 then -|prevTheta| else |prevTheta|) / dNorm) D)
          (-(if 2 * traceXtY prev_G D / dNorm < 0 then -|prevTheta| else |prevTheta|) / dNorm) D,
         -(2 * traceXtY prev_G D / dNorm) /
           ((evalTrace (aXpbY 1 Y
               ((if 2 * traceXtY prev_G D / dNorm < 0 then -|prevTheta| else |prevTheta|) / dNorm) D)
             - E - 2 * traceXtY prev_G D / dNorm *
               (if 2 * traceXtY prev_G D / dNorm < 0 then -|prevTheta| else |prevTheta|)) /
            (1/2 * (if 2 * traceXtY prev_G D / dNorm < 0 then -|prevTheta| else |prevTheta|) *
             (if 2 * traceXtY prev_G D / dNorm < 0 then -|prevTheta| else |prevTheta|))),
         true⟩ := by
      unfold approxLinminStep
      rw [if_pos hcond]
    unfold linminPhase
    rw [if_pos rfl, hstep]
    rfl
  · intro hcond
    have hstep : approxLinminStep E prevE prevTheta dNorm Y D prev_G evalTrace =
        ⟨aXpbY 1 (aXpbY 1 Y
            ((if 2 * traceXtY prev_G D / dNorm < 0 then -|prevTheta| else |prevTheta|) / dNorm) D)
          ((-(2 * traceXtY prev_G D / dNorm) /
             ((evalTrace (aXpbY 1 Y
                 ((if 2 * traceXtY prev_G D / dNorm < 0 then -|prevTheta| else |prevTheta|) / dNorm) D)
               - E - 2 * traceXtY prev_G D / dNorm *
                 (if 2 * traceXtY prev_G D / dNorm < 0 then -|prevTheta| else |prevTheta|)) /
              (1/2 * (if 2 * traceXtY prev_G D / dNorm < 0 then -|prevTheta| else |prevTheta|) *
               (if 2 * traceXtY prev_G D / dNorm < 0 then -|prevTheta| else |prevTheta|)))
            - (if 2 * traceXtY prev_G D / dNorm < 0 then -|prevTheta| else |prevTheta|)) / dNorm) D,
         -(2 * traceXtY prev_G D / dNorm) /
           ((evalTrace (aXpbY 1 Y
               ((if 2 * traceXtY prev_G D / dNorm < 0 then -|prevTheta| else |prevTheta|) / dNorm) D)
             - E - 2 * traceXtY prev_G D / dNorm *
               (if 2 * traceXtY prev_G D / dNorm < 0 then -|prevTheta| else |prevTheta|)) /
            (1/2 * (if 2 * traceXtY prev_G D / dNorm < 0 then -|prevTheta| else |prevTheta|) *
             (if 2 * traceXtY prev_G D / dNorm < 0 then -|prevTheta| else |prevTheta|))),
         false⟩ := by
      unfold approxLinminStep
      rw [if_neg hcond]
    unfold linminPhase
    rw [if_pos rfl, hstep]
    rfl

/-- Witness for C3: with E = 0, prev_theta = 1, d_norm = 1, Y = [0],
D = [1], prev_G = [1] and a probe trace of 1, the finite-difference d2E
is -2 < 0, so the probe shift is undone and the exact branch (here the
map sending Y to (Y, 7)) runs on the restored block. -/
theorem C3_approx_fallback_witness :
    linminPhase false (fun Ys => (Ys, 7)) 0 0 1 1 [0] [1] [1] (fun _ => 1) =
      ([0], 7, true) := by
  have h := (C3_approx_fallback 0 0 1 1 [0] [1] [1] (fun _ => 1) (fun Ys => (Ys, 7))
      2 1 1 (-2) 1 [1]
      (by norm_num [traceXtY, List.zipWith])
      (by norm_num)
      (by norm_num [aXpbY, List.zipWith])
      (by norm_num)
      (by norm_num)
      (by norm_num)).1 (Or.inl (by norm_num))
  rw [h]
  norm_num [aXpbY, List.zipWith]

/-! ### C8: linmin precondition CHECKs -/

/-- C8: linmin aborts fatally whenever its preconditions fail, before any
bracketing step: if df_xmin * (x0 - xmin) is nonnegative the first CHECK
fires, and otherwise, when x0 does not lie strictly between xmin and xmax
in the direction s from xmin to xmax, the second CHECK fires.  Both
conclusions hold for every func, ridder continuation and fuel, so no
evaluation of func takes place before the abort. -/
theorem C8_linmin_preconditions (func : ℚ → ℚ × ℚ) (ridder : BracketOut → ℚ → ℚ × ℚ)
    (xmin f_xmin df_xmin xmax x0 tol : ℚ) (innerFuel outerFuel : ℕ) :
    (0 ≤ df_xmin * (x0 - xmin) →
      linmin func ridder xmin f_xmin df_xmin xmax x0 tol innerFuel outerFuel =
        .fatal "linmin: bad initial guess!")
  ∧ (∀ s : ℚ, s = (if xmax > xmin then 1 else -1) →
      df_xmin * (x0 - xmin) < 0 →
      ¬(x0 * s < xmax * s ∧ x0 * s > xmin * s) →
      linmin func ridder xmin f_xmin df_xmin xmax x0 tol innerFuel outerFuel =
        .fatal "linmin: initial guess out of range") := by
  constructor
  · intro h
    simp only [linmin]
    rw [if_neg (not_lt.mpr h)]
  · intro s hs h1 h2
    subst hs
    simp only [linmin]
    rw [if_pos h1, if_neg h2]

/-- Witness for C8: an uphill initial guess (df_xmin positive with
x0 > xmin) trips the first CHECK. -/
theorem C8_linmin_preconditions_witness :
    linmin (fun _ => ((0 : ℚ), (0 : ℚ))) (fun _ _ => (0, 0)) 0 0 1 1 1 1 1 1 =
      LinminOutcome.fatal "linmin: bad initial guess!" :=
  (C8_linmin_preconditions (fun _ => ((0 : ℚ), (0 : ℚ))) (fun _ _ => (0, 0))
    0 0 1 1 1 1 1 1).1 (by norm_num)

/-! ### Helper lemma for the bracketing loop -/

/-- On a not-found exit of the bracketing loop, the lower end keeps its
entry values and the final guess has been halved toward xmin at least
once: x0_final - xmin = (x0 - xmin) / 2 ^ k for some k at least 1. -/
theorem bracketLoop_notFound (func : ℚ → ℚ × ℚ) (tol s xmax xmin f_xmin df_xmin : ℚ)
    (innerFuel : ℕ) :
    ∀ outerFuel x0 st,
      bracketLoop func tol s xmax xmin f_xmin df_xmin innerFuel outerFuel x0 = some st →
      st.found = false →
      st.xmin = xmin ∧ st.f_xmin = f_xmin ∧ st.df_xmin = df_xmin ∧
        ∃ k : ℕ, 1 ≤ k ∧ st.x0 - xmin = (x0 - xmin) / 2 ^ k := by
  intro outerFuel
  induction outerFuel with
  | zero =>
    intro x0 st h hf
    simp [bracketLoop] at h
  | succ n ih =>
    intro x0 st h hf
    simp only [bracketLoop] at h
    cases hscan : scanBracket func s xmax xmin ((x0 - xmin) * 2) innerFuel
        (xmin, f_xmin, df_xmin) (xmin + (x0 - xmin) * 2) with
    | none =>
      rw [hscan] at h
      simp at h
    | some ex =>
      rw [hscan] at h
      cases ex with
      | found x f df xmin2 f2 df2 =>
        simp only [Option.some.injEq] at h
        subst h
        simp at hf
      | exhausted =>
        simp only [] at h
        by_cases hcont :
            |(x0 + xmin) / 2 - xmin| > tol * (|(x0 + xmin) / 2| + tol)
        · rw [if_pos hcont] at h
          obtain ⟨e1, e2, e3, k, hk1, hk2⟩ := ih ((x0 + xmin) / 2) st h hf
          refine ⟨e1, e2, e3, k + 1, by omega, ?_⟩
          rw [hk2, show (x0 + xmin) / 2 - xmin = (x0 - xmin) / 2 from by ring,
            div_div, pow_succ, mul_comm ((2 : ℚ) ^ k) 2]
        · rw [if_neg hcont] at h
          simp only [Option.some.injEq] at h
          subst h
          exact ⟨rfl, rfl, rfl, 1, le_refl 1, by ring⟩

/-! ### C9: the bracketing-failure CHECK -/

/-- C9 counterexample: with xmin = 0, df_xmin = -1, xmax = 10, x0 = 1/10
and tolerance 1, a derivative sign change is hit at the very first step
(the bracketing loop exits with found = true and bracket [0, 1/5]), yet
linmin still raises the fatal bracketing-failure error, because the CHECK
after the loop retests |x0 - xmin| > tol * (|x0| + tol), which fails
here.  So the fatal error is not raised exactly when no bracket was
found. -/
theorem C9_counterexample :
    bracketLoop (fun _ => ((0 : ℚ), (1 : ℚ))) 1 1 10 0 0 (-1) 5 5 (1/10) =
      some ⟨0, 0, -1, 1/5, 0, 1, 1/10, true⟩
  ∧ linmin (fun _ => ((0 : ℚ), (1 : ℚ))) (fun _ _ => (0, 0)) 0 0 (-1) 10 (1/10) 1 5 5 =
      .fatal "linmin: failed to bracket minimum!" := by
  constructor
  · norm_num [bracketLoop, scanBracket]
  · norm_num [linmin, bracketLoop, scanBracket]

/-- C9 amended: under the two entry preconditions, whenever the bracketing
loop exits with state st, linmin raises the fatal bracketing-failure
error if and only if |st.x0 - st.xmin| is at most tol * (|st.x0| + tol)
at the exit state, whose xmin may have advanced when a bracket was found;
in particular the error can fire together with a found bracket.  On a
not-found exit, xmin keeps its entry value and the final x0 satisfies
x0_final - xmin = (x0 - xmin) / 2 ^ k for some k at least 1, reflecting
the repeated halving of the guess toward xmin before the retry. -/
theorem C9_bracket_failure_iff (func : ℚ → ℚ × ℚ) (ridder : BracketOut → ℚ → ℚ × ℚ)
    (xmin f_xmin df_xmin xmax x0 tol : ℚ) (innerFuel outerFuel : ℕ) (st : BracketOut)
    (h1 : df_xmin * (x0 - xmin) < 0)
    (h2 : x0 * (if xmax > xmin then (1 : ℚ) else -1) <
            xmax * (if xmax > xmin then (1 : ℚ) else -1)
        ∧ x0 * (if xmax > xmin then (1 : ℚ) else -1) >
            xmin * (if xmax > xmin then (1 : ℚ) else -1))
    (hbr : bracketLoop func tol (if xmax > xmin then (1 : ℚ) else -1) xmax
        xmin f_xmin df_xmin innerFuel outerFuel x0 = some st) :
    (linmin func ridder xmin f_xmin df_xmin xmax x0 tol innerFuel outerFuel =
        .fatal "linmin: failed to bracket minimum!" ↔
      |st.x0 - st.xmin| ≤ tol * (|st.x0| + tol))
  ∧ (st.found = false →
      st.xmin = xmin ∧ ∃ k : ℕ, 1 ≤ k ∧ st.x0 - xmin = (x0 - xmin) / 2 ^ k) := by
  constructor
  · simp only [linmin]
    rw [if_pos h1, if_pos h2, hbr]
    dsimp only
    by_cases hcol : |st.x0 - st.xmin| > tol * (|st.x0| + tol)
    · rw [if_pos hcol]
      exact iff_of_false (by simp) (not_le.mpr hcol)
    · rw [if_neg hcol]
      exact iff_of_true rfl (not_lt.mp hcol)
  · intro hf
    obtain ⟨e1, e2, e3, hk⟩ := bracketLoop_notFound func tol
      (if xmax > xmin then (1 : ℚ) else -1) xmax xmin f_xmin df_xmin
      innerFuel outerFuel x0 st hbr hf
    exact ⟨e1, hk⟩

/-- Witness for C9 amended, on the same run as the counterexample: the
error fires and indeed |x0 - xmin| = 1/10 is at most 1 * (1/10 + 1). -/
theorem C9_bracket_failure_iff_witness :
    linmin (fun _ => ((0 : ℚ), (1 : ℚ))) (fun _ _ => (0, 0)) 0 0 (-1) 10 (1/10) 1 5 5 =
        LinminOutcome.fatal "linmin: failed to bracket minimum!" ↔
      |(1/10 : ℚ) - 0| ≤ 1 * (|(1/10 : ℚ)| + 1) := by
  have h := (C9_bracket_failure_iff (fun _ => ((0 : ℚ), (1 : ℚ))) (fun _ _ => (0, 0))
      0 0 (-1) 10 (1/10) 1 5 5 ⟨0, 0, -1, 1/5, 0, 1, 1/10, true⟩
      (by norm_num) (by norm_num) (by norm_num [bracketLoop, scanBracket])).1
  simpa using h
